import Mathlib

/-!
Verification of the travel-booking backend (`backend/app`): a shallow
embedding of the pure decision logic of `custom_tools.py` (flight search,
flight booking, hotel search, trip ledger) and of the per-connection
websocket orchestration loop of `main.py`.

Modelling conventions:
* Remote HTTP calls are oracles: each provider reply is an explicit input
  of the embedded function, shaped exactly like the JSON fields the code
  reads (fields read with `.get(k, default)` become `Option`, fields read
  with `[k]` inside a `try` become list/`Option` shapes whose failure case
  is routed to the corresponding `except` branch).
* Python exceptions are modelled with `Except`/`PyResult` values; a raised
  exception propagates to the nearest enclosing handler exactly as in the
  source.
* Machine floats appear only as parsed hotel price totals; a price total
  carries its parse outcome (`Option` of a rational) as data, standing for
  the result of Python `float(...)`.
-/

namespace TravelBooking

/-! ## Domain model (models.py) -/

/-- Time/airport pair used inside a flight segment (models.py dicts). -/
structure TimeAirport where
  time : String
  airport : String
deriving DecidableEq, Repr

/-- models.py `FlightSegment`. -/
structure FlightSegment where
  carrier : String
  number : String
  departure : TimeAirport
  arrival : TimeAirport
deriving DecidableEq, Repr

/-- models.py `FlightInfo`; `stops` is a Python `int`, hence `Int` here. -/
structure FlightInfo where
  segments : List FlightSegment
  total_duration : String
  stops : Int
deriving DecidableEq, Repr

/-- models.py `FlightPrice`. -/
structure FlightPrice where
  amount : String
  currency : String
deriving DecidableEq, Repr

/-- models.py `Flight`. -/
structure Flight where
  price : FlightPrice
  flight : FlightInfo
deriving DecidableEq, Repr

/-- models.py `FlightSearchResult`. -/
structure FlightSearchResult where
  flights : Option (List Flight) := none
  error : Option String := none
deriving DecidableEq, Repr

/-! ## Provider payload shapes read by custom_tools.py -/

/-- One endpoint of a provider flight segment: the `at` and `iataCode`
fields read by `search_flights` and `book_flight`. -/
structure ApiPoint where
  at_ : String
  iataCode : String
deriving DecidableEq, Repr

/-- Provider flight segment as read by the code (`carrierCode`, `number`,
`departure`, `arrival`). -/
structure ApiSegment where
  carrierCode : String
  number : String
  departure : ApiPoint
  arrival : ApiPoint
deriving DecidableEq, Repr

/-- Provider itinerary: `duration` is read with `.get("duration", "")`,
`segments` with direct indexing. -/
structure ApiItinerary where
  duration : Option String
  segments : List ApiSegment
deriving DecidableEq, Repr

/-- Provider price object (`total`, `currency`). -/
structure ApiPrice where
  total : String
  currency : String
deriving DecidableEq, Repr

/-- Provider flight offer: `id`, `itineraries` (indexed with `[0]`,
which raises when empty), `price`. -/
structure ApiOffer where
  id : String
  itineraries : List ApiItinerary
  price : ApiPrice
deriving DecidableEq, Repr

/-- One entry of a provider `errors` array: `detail` and `code` are read
with `.get`, and `code` may be a string or a number in provider payloads
(the code guards with `isinstance(error_code, str)`). -/
inductive JCode where
  | str (s : String)
  | num (n : Int)
deriving DecidableEq, Repr

/-- Provider error entry. -/
structure ApiError where
  detail : Option String := none
  code : Option JCode := none
deriving DecidableEq, Repr

/-- Substring test, standing for the Python `pat in hay` operator on
strings (membership of a contiguous substring). -/
def containsSub (hay pat : String) : Bool :=
  (hay.splitOn pat).length != 1

/-- Python truthiness of an optional string (`None` and `""` are falsy). -/
def truthyOpt : Option String → Bool
  | none => false
  | some s => s != ""

/-! ## search_flights (custom_tools.py lines 46-135) -/

/-- A reply from one provider HTTP call, as branched on by the code:
either the JSON carried an `errors` key (whose value is the error list)
or it did not, in which case the payload the code reads next is given. -/
inductive Reply (α : Type) where
  | withErrors (es : List ApiError)
  | ok (payload : α)
deriving DecidableEq, Repr

/-- The generic apology returned by the outermost `except` of
`search_flights` (line 134). -/
def genericSearchApology : String :=
  "I encountered an issue while trying to search for your flight. This could be due to temporary availability issues. Please try searching for flights again, and I\u0027ll help you complete the booking. Also could be the access token issue, try refreshing it. Sorry for the inconvenience!"

/-- The error-message cascade of `search_flights` (lines 66-87), applied
to the first entry of the `errors` array. -/
def searchErrorMessage (origin destination date : String) (e : ApiError) : String :=
  let error_detail := e.detail.getD ""
  let error_code := e.code.getD (.str "")
  let fromCode : Option String :=
    match error_code with
    | .str c =>
      if containsSub c "INVALID_PARAMETER" then
        if containsSub error_detail "originLocationCode" then
          some ("Invalid origin airport code: " ++ origin ++ ". Please provide a valid IATA airport code.")
        else if containsSub error_detail "destinationLocationCode" then
          some ("Invalid destination airport code: " ++ destination ++ ". Please provide a valid IATA airport code.")
        else if containsSub error_detail "departureDate" then
          some ("Invalid date format: " ++ date ++ ". Please provide the date in YYYY-MM-DD format.")
        else none
      else if containsSub c "NO_FLIGHT_FOUND" then
        some ("No flights found from " ++ origin ++ " to " ++ destination ++ " on " ++ date ++ ". Try different dates or airports.")
      else none
    | .num _ => none
  match fromCode with
  | some msg => msg
  | none =>
    if containsSub error_detail.toLower "date/time is in the past" then
      "Please provide a date in the format: YYYY-MM-DD, and I will try the search again."
    else if error_detail != "" then error_detail
    else "Failed to search for flights. Please try again."

/-- models.py `FlightSegment` built from a provider segment
(custom_tools.py lines 96-107). -/
def mkSegment (s : ApiSegment) : FlightSegment :=
  { carrier := s.carrierCode
    number := s.number
    departure := ⟨s.departure.at_, s.departure.iataCode⟩
    arrival := ⟨s.arrival.at_, s.arrival.iataCode⟩ }

/-- Per-offer processing of `search_flights` (lines 92-124). Indexing
`offer["itineraries"][0]` raises `IndexError` when the list is empty;
that exception is caught by the surrounding `except (KeyError,
IndexError)`, modelled by the `Except` error case. -/
def processOffer (offer : ApiOffer) : Except Unit Flight :=
  match offer.itineraries with
  | [] => .error ()
  | itin :: _ =>
    let segments := itin.segments.map mkSegment
    let total_duration := itin.duration.getD ""
    let stops : Int := (segments.length : Int) - 1
    .ok { price := { amount := offer.price.total, currency := offer.price.currency }
          flight := { segments := segments, total_duration := total_duration, stops := stops } }

/-- custom_tools.py `search_flights`, as a function of the parsed provider
reply. The `data` field is read as `response_data["data"][:5]`; a raising
iteration lands in the `except (KeyError, IndexError)` branch (line 128). -/
def search_flights (origin destination date : String) (resp : Reply (List ApiOffer)) :
    FlightSearchResult :=
  match resp with
  | .withErrors [] =>
    -- `errors` present but empty: `response_data["errors"][0]` raises
    -- IndexError, caught by the outermost handler (line 132).
    { flights := none, error := some genericSearchApology }
  | .withErrors (e :: _) =>
    { flights := none, error := some (searchErrorMessage origin destination date e) }
  | .ok data =>
    match (data.take 5).mapM processOffer with
    | .ok flights => { flights := some flights, error := none }
    | .error _ =>
      { flights := none, error := some "Unable to process flight search results. Please try again." }

/-! ## Trip ledger (custom_tools.py lines 525-562) and its date keys -/

/-- A calendar date as supplied by `datetime.now()`; the embedded ledger
operations take it as an explicit argument. -/
structure Date where
  year : Nat
  month : Nat
  day : Nat
deriving DecidableEq, Repr

/-- Decimal digit characters of `n`, most significant first. -/
def natDigitChars (n : Nat) : List Char :=
  ((Nat.digits 10 n).map fun d => Char.ofNat (48 + d)).reverse

/-- Zero-padded decimal rendering of `n` to width `w`, as produced by the
`strftime` conversions `%Y` (w = 4), `%m` and `%d` (w = 2). -/
def padChars (w n : Nat) : List Char :=
  List.replicate (w - (natDigitChars n).length) '0' ++ natDigitChars n

/-- `datetime.now().strftime("%Y%m%d")`. -/
def fmtYYYYMMDD (d : Date) : String :=
  String.mk (padChars 4 d.year ++ padChars 2 d.month ++ padChars 2 d.day)

/-- `datetime.now().strftime("%Y-%m-%d")` (the `booking_date` field). -/
def bookingDateStr (d : Date) : String :=
  String.mk (padChars 4 d.year ++ ['-'] ++ padChars 2 d.month ++ ['-'] ++ padChars 2 d.day)

/-- The trip key built by `store_booking` (line 547): the literal prefix
TRIP_ followed by the current date rendered as YYYYMMDD — derived purely
from the current date. -/
def tripIdFor (d : Date) : String :=
  "TRIP_" ++ fmtYYYYMMDD d

/-- Numeric value of a digit-character string, used below to invert the
padded date rendering. -/
def charsVal (l : List Char) : Nat :=
  Nat.ofDigits 10 ((l.map fun c => c.toNat - 48).reverse)

/-- models.py `Traveler`, restricted to the scalar identity fields; the
nested contact/document/payment sub-objects are carried by the source
only to be forwarded verbatim to the provider and are elided here. -/
structure Traveler where
  id : String := "1"
  dateOfBirth : String := "2000-01-16"
  firstName : String := "John"
  lastName : String := "Smith"
  gender : String := "MALE"
deriving DecidableEq, Repr

/-- models.py `FlightDetails`, with one record per segment as built by
`book_flight` (lines 247-263). -/
structure FDSegment where
  flight_number : String
  departure : String
  arrival : String
  origin : String
  destination : String
deriving DecidableEq, Repr

/-- models.py `FlightDetails`. -/
structure FlightDetails where
  segments : List FDSegment
  total_segments : Nat
  origin : String
  destination : String
  departure : String
  arrival : String
deriving DecidableEq, Repr

/-- models.py `BookingResult`. -/
structure BookingResult where
  booking_reference : Option String := none
  status : String
  error : Option String := none
  price : Option String := none
  flight_details : Option FlightDetails := none
  traveler_info : Option Traveler := none
deriving DecidableEq, Repr

/-- models.py `HotelBookingResult`, restricted to the scalar fields. -/
structure HotelBookingResult where
  booking_id : Option String := none
  status : String := "confirmed"
  error : Option String := none
  hotel_name : Option String := none
  check_in : Option String := none
  check_out : Option String := none
deriving DecidableEq, Repr

/-- models.py `TransferBookingResult`, restricted to the scalar fields. -/
structure TransferBookingResult where
  booking_id : Option String := none
  status : String := "confirmed"
  error : Option String := none
deriving DecidableEq, Repr

/-- The `Union[BookingResult, HotelBookingResult, TransferBookingResult]`
second argument of `store_booking`. -/
inductive BookingData where
  | flight (b : BookingResult)
  | hotel (b : HotelBookingResult)
  | transfer (b : TransferBookingResult)
deriving DecidableEq, Repr

/-- models.py `TripBooking` (the `price`/`guest_info` passthrough fields,
never written by the source, are elided). -/
structure TripBooking where
  booking_type : String
  booking_date : String
  flight_booking : Option BookingResult := none
  hotel_booking : Option HotelBookingResult := none
  transfer_booking : Option TransferBookingResult := none
  status : String := "confirmed"
deriving DecidableEq, Repr

/-- models.py `TripDetails`. -/
structure TripDetails where
  trip_id : String
  bookings : List TripBooking := []
deriving DecidableEq, Repr

/-- The module-level `trip_storage: Dict[str, TripDetails]`, modelled as
an insertion-ordered association list (Python dict semantics). -/
abbrev TripStorage := List (String × TripDetails)

/-- Dict key lookup, first match. -/
def lookupTrip : TripStorage → String → Option TripDetails
  | [], _ => none
  | (k, td) :: rest, tid => if k == tid then some td else lookupTrip rest tid

/-- In-place `trip_storage[trip_id].bookings.append(tb)` on the first
entry with the given key. -/
def appendToTrip : TripStorage → String → TripBooking → TripStorage
  | [], _, _ => []
  | (k, td) :: rest, tid, tb =>
    if k == tid then (k, { td with bookings := td.bookings ++ [tb] }) :: rest
    else (k, td) :: appendToTrip rest tid tb

/-- The `TripBooking(...)` construction plus slot assignment of
`store_booking` (lines 533-544): the booking result is stored in the slot
selected by the `booking_type` string. -/
def mkTripBooking (booking_type : String) (bd : BookingData) (today : Date) : TripBooking :=
  let base : TripBooking := { booking_type := booking_type, booking_date := bookingDateStr today }
  if booking_type == "flight" then
    { base with flight_booking := match bd with | .flight b => some b | _ => none }
  else if booking_type == "hotel" then
    { base with hotel_booking := match bd with | .hotel b => some b | _ => none }
  else if booking_type == "transfer" then
    { base with transfer_booking := match bd with | .transfer b => some b | _ => none }
  else base

/-- custom_tools.py `store_booking` (lines 528-550), with the current
date passed explicitly: create the day-keyed trip if absent, then append
the booking to it. -/
def store_booking (booking_type : String) (bd : BookingData) (st : TripStorage)
    (today : Date) : TripStorage :=
  let tb := mkTripBooking booking_type bd today
  let tid := tripIdFor today
  let st1 := if (lookupTrip st tid).isNone then st ++ [(tid, { trip_id := tid, bookings := [] })] else st
  appendToTrip st1 tid tb

/-- models.py `GetTripDetailsParams`. -/
structure GetTripDetailsParams where
  trip_id : Option String := none
deriving DecidableEq, Repr

/-- models.py `TripDetailsResponse`. -/
structure TripDetailsResponse where
  trips : List TripDetails
  error : Option String := none
deriving DecidableEq, Repr

/-- Dict values in insertion order (`list(trip_storage.values())`). -/
def allTrips (st : TripStorage) : List TripDetails :=
  st.map (·.2)

/-- custom_tools.py `get_trip_details` (lines 552-562). The guard is the
Python truthiness test `if params.trip_id:`, so both `None` and the empty
string fall through to the all-trips branch. -/
def get_trip_details (p : GetTripDetailsParams) (st : TripStorage) : TripDetailsResponse :=
  match p.trip_id with
  | some tid =>
    if tid != "" then
      match lookupTrip st tid with
      | some td => { trips := [td], error := none }
      | none => { trips := [], error := some ("Trip " ++ tid ++ " not found") }
    else { trips := allTrips st, error := none }
  | none => { trips := allTrips st, error := none }

/-! ## book_flight (custom_tools.py lines 137-282) -/

/-- models.py `BookFlightParams`. -/
structure BookFlightParams where
  flight_id : String
  origin : String
  destination : String
  departure_date : String
  traveler : Traveler
deriving DecidableEq, Repr

/-- The generic apology of the outermost `except` of `book_flight`
(line 281). -/
def genericBookingApology : String :=
  "I encountered an issue while trying to book your flight. This could be due to temporary availability issues. Please try searching for flights again, and I\u0027ll help you complete the booking. Also could be the access token issue, try refreshing it. Sorry for the inconvenience!"

/-- The schedule-change message special-cased in steps 1 and 3. -/
def scheduleChangeMsg : String :=
  "This flight\u0027s schedule has recently changed or has been booked out. Please search with a later date. I apologize for the inconvenience."

/-- An error-status `BookingResult` (all other fields default). -/
def errResult (msg : String) : BookingResult :=
  { status := "error", error := some msg }

/-- The pricing reply payload: `pricing_data["data"]["flightOffers"]`.
Only existence of index 0 is consumed (the offer is forwarded to the
order-creation call); its itinerary shape is reused. -/
structure ConfOffer where
  itineraries : List ApiItinerary
  price : ApiPrice
deriving DecidableEq, Repr

/-- The order-creation reply payload: `booking_data["data"]` with its
`id` (read via `.get`) and `flightOffers`. -/
structure BookedOrder where
  id : Option String := none
  flightOffers : List ConfOffer
deriving DecidableEq, Repr

/-- custom_tools.py `book_flight`, as a function of the three provider
replies it makes in sequence (re-search, pricing, order creation), the
ledger state and the current date. Any `IndexError`/`KeyError` on the
payload shapes (empty `errors`, `flightOffers`, `itineraries` or
`segments` lists) lands in the outermost `except` (line 277), producing
the generic apology; only a confirmed result writes the ledger. -/
def book_flight (params : BookFlightParams) (searchReply : Reply (List ApiOffer))
    (pricingReply : Reply (List ConfOffer)) (orderReply : Reply BookedOrder)
    (st : TripStorage) (today : Date) : BookingResult × TripStorage :=
  match searchReply with
  | .withErrors [] => (errResult genericBookingApology, st)
  | .withErrors (e :: _) =>
    let error_detail := e.detail.getD ""
    if containsSub error_detail.toLower "schedule change detected" then
      (errResult scheduleChangeMsg, st)
    else
      (errResult (if error_detail != "" then error_detail else "No flights found matching the criteria"), st)
  | .ok offers =>
    match offers.find? (fun o => o.id == params.flight_id) with
    | none => (errResult "Could not find the selected flight. Please search again.", st)
    | some _flight_offer =>
      match pricingReply with
      | .withErrors [] => (errResult genericBookingApology, st)
      | .withErrors (e :: _) => (errResult (e.detail.getD "Price confirmation failed"), st)
      | .ok confOffers =>
        match confOffers with
        | [] =>
          -- `pricing_data["data"]["flightOffers"][0]` raises IndexError
          -- before the order-creation call is made.
          (errResult genericBookingApology, st)
        | _ :: _ =>
          match orderReply with
          | .withErrors [] => (errResult genericBookingApology, st)
          | .withErrors (e :: _) =>
            let error_detail := e.detail.getD ""
            if containsSub error_detail.toLower "schedule change detected" then
              (errResult scheduleChangeMsg, st)
            else
              (errResult (e.detail.getD "Booking failed"), st)
          | .ok order =>
            match order.flightOffers with
            | [] => (errResult genericBookingApology, st)
            | co :: _ =>
              match co.itineraries with
              | [] => (errResult genericBookingApology, st)
              | itin :: _ =>
                match itin.segments with
                | [] =>
                  -- `segments[0]` / `segments[-1]` raise IndexError.
                  (errResult genericBookingApology, st)
                | s0 :: srest =>
                  let lastSeg := srest.getLastD s0
                  let fd : FlightDetails :=
                    { segments := (s0 :: srest).map fun s =>
                        { flight_number := s.carrierCode ++ s.number
                          departure := s.departure.at_
                          arrival := s.arrival.at_
                          origin := s.departure.iataCode
                          destination := s.arrival.iataCode }
                      total_segments := (s0 :: srest).length
                      origin := s0.departure.iataCode
                      destination := lastSeg.arrival.iataCode
                      departure := s0.departure.at_
                      arrival := lastSeg.arrival.at_ }
                  let result : BookingResult :=
                    { booking_reference := some (order.id.getD "Unknown")
                      status := "confirmed"
                      error := none
                      price := some co.price.total
                      flight_details := some fd
                      traveler_info := some params.traveler }
                  (result, store_booking "flight" (.flight result) st today)

/-- All three dependent provider calls of `book_flight` succeeded (no
`errors` key in any reply) and the requested offer id was found in the
re-search results. -/
def bookStepsOk (params : BookFlightParams) (searchReply : Reply (List ApiOffer))
    (pricingReply : Reply (List ConfOffer)) (orderReply : Reply BookedOrder) : Bool :=
  match searchReply, pricingReply, orderReply with
  | .ok offers, .ok _, .ok _ => offers.any (fun o => o.id == params.flight_id)
  | _, _, _ => false

/-! ## search_hotels per-hotel processing (custom_tools.py lines 337-388) -/

/-- The `total` field of a room offer price. `missing` stands for an
absent key: the room display then uses the default `"N/A"` and the
cheapest-price computation uses the default `"inf"`, which parses to
positive infinity and never wins a strict comparison. `present raw p`
carries the raw string together with the outcome `p` of Python
`float(raw)` (`none` when the conversion raises). -/
inductive PriceTotal where
  | missing
  | present (raw : String) (parsed : Option ℚ)
deriving DecidableEq, Repr

/-- One provider room offer, restricted to the fields the code reads. -/
structure HotelOffer where
  roomCategory : String
  description : String
  bedType : String
  total : PriceTotal
  currency : Option String
  refundable : Bool
  cancellationPolicy : String
deriving DecidableEq, Repr

/-- models.py `RoomDetails` (price kept as its amount/currency pair). -/
structure RoomDetails where
  roomType : String
  description : String
  bedType : String
  priceAmount : String
  priceCurrency : String
  refundable : Bool
  cancellationPolicy : String
deriving DecidableEq, Repr

/-- The `RoomDetails(...)` construction (lines 348-358); every offer
yields a room, whatever its price total looks like. -/
def mkRoom (o : HotelOffer) : RoomDetails :=
  { roomType := o.roomCategory
    description := o.description
    bedType := o.bedType
    priceAmount := match o.total with | .missing => "N/A" | .present raw _ => raw
    priceCurrency := o.currency.getD "USD"
    refundable := o.refundable
    cancellationPolicy := o.cancellationPolicy }

/-- The numeric value an offer contributes to the cheapest-price fold:
`none` when the total is absent (parses to infinity, never a strict
minimum) or when `float(...)` raises (the `except` clause skips it). -/
def parsedTotal (o : HotelOffer) : Option ℚ :=
  match o.total with
  | .present _ (some q) => some q
  | _ => none

/-- The parsable numeric totals of a list of offers, in order. -/
def parsedTotals (os : List HotelOffer) : List ℚ :=
  os.filterMap parsedTotal

/-- The cheapest-price tracking loop (lines 344-368): the accumulator is
`(cheapest_price, cheapest_currency)` with `none` standing for the
initial `float("inf")`; an offer updates it only on a strictly smaller
parsed total. -/
def cheapestGo : List HotelOffer → Option ℚ × String → Option ℚ × String
  | [], acc => acc
  | o :: rest, acc =>
    match parsedTotal o with
    | none => cheapestGo rest acc
    | some q =>
      match acc.1 with
      | none => cheapestGo rest (some q, o.currency.getD "USD")
      | some c =>
        if q < c then cheapestGo rest (some q, o.currency.getD "USD")
        else cheapestGo rest acc

/-- Hotel summary as assembled per hotel: the rooms list and the headline
price. The headline amount `some c` stands for the source string
`str(cheapest_price)` and `none` for the `"N/A"` branch (line 385). -/
structure HotelSummary where
  rooms : List RoomDetails
  priceAmount : Option ℚ
  priceCurrency : String
deriving DecidableEq, Repr

/-- Per-hotel processing of `search_hotels` (lines 342-388), restricted
to the room projection and headline-price computation. -/
def processHotelOffers (os : List HotelOffer) : HotelSummary :=
  let acc := cheapestGo os (none, "USD")
  { rooms := os.map mkRoom, priceAmount := acc.1, priceCurrency := acc.2 }

/-! ## The websocket orchestration loop (main.py lines 496-667) -/

/-- Outcome of one Python expression that may raise: `exc` carries the
`str(e)` rendering used by the error reporting path. -/
inductive PyResult (α : Type) where
  | ok (a : α)
  | exc (msg : String)
deriving DecidableEq, Repr

/-- A tool-call entry of an assistant message (the fields the code reads
from `tool_call.function`). -/
structure ToolCallRecord where
  id : String
  name : String
  arguments : String
deriving DecidableEq, Repr

/-- models.py `ChatMessage`. -/
structure ChatMessage where
  role : String
  content : Option String := none
  tool_calls : Option (List ToolCallRecord) := none
  tool_call_id : Option String := none
deriving DecidableEq, Repr

/-- Everything the websocket handler sends to the client: the three
payload types of main.py (`message_received`, `chat_response` with role
`assistant`, `error`). -/
inductive Outbound where
  | messageReceived (text : String)
  | chatResponse (content : Option String)
  | errorMsg (text : String)
deriving DecidableEq, Repr

/-- A dispatched tool result as the loop sees it: its `error` attribute
and its serialized `model_dump` payload (opaque). -/
structure ToolResultVal where
  error : Option String := none
  dump : String := ""
deriving DecidableEq, Repr

/-- One entry of `response.choices[0].message.tool_calls`, bundled with
the oracle outcomes of the external steps taken for it: decoding its
argument string, constructing the parameter object, running the handler,
and the follow-up chat-completion call made after a successful dispatch. -/
structure ToolCallEvent where
  id : String
  ctype : String
  name : String
  argsStr : String
  argsDecode : PyResult Unit
  ctorOk : Bool
  handler : PyResult ToolResultVal
  followup : PyResult (Option String)
deriving DecidableEq, Repr

/-- The keys of main.py `FUNCTION_MAP`. -/
def knownToolNames : List String :=
  ["search_flights", "book_flight", "search_hotels", "book_hotel",
   "get_trip_details", "search_transfers", "book_transfer"]

/-- The interstitial notice sent after each handler returns (line 600). -/
def browsingNotice : Outbound :=
  Outbound.chatResponse (some "Browsing for options...")

/-- The apology sent by the per-tool-call `except` handler (line 643). -/
def apologyGeneric : Outbound :=
  Outbound.chatResponse (some "I encountered an error while processing your request. Let me help you try again.")

/-- The apology sent when a tool result carries a truthy error (line 614). -/
def toolErrorApology (e : String) : String :=
  "I encountered an error: " ++ e ++ ". Let me help you try again."

/-- The assistant tool-call message appended to history (lines 619-630). -/
def assistantToolCallMsg (e : ToolCallEvent) : ChatMessage :=
  { role := "assistant", content := none
    tool_calls := some [{ id := e.id, name := e.name, arguments := e.argsStr }] }

/-- The tool-result message appended to history (lines 632-636). -/
def toolResultMsg (e : ToolCallEvent) (res : ToolResultVal) : ChatMessage :=
  { role := "tool", content := some res.dump, tool_call_id := some e.id }

/-- Result of the `for tool_call in ...` loop: either it ran to the end
(with everything sent and the final history), or an exception escaped the
per-tool-call `try` mid-loop and propagates to the message-level handler. -/
inductive LoopResult where
  | done (sent : List Outbound) (msgs : List ChatMessage)
  | raisedMid (sent : List Outbound) (msg : String)
deriving DecidableEq, Repr

/-- Prefix already-sent payloads onto a loop result. -/
def prependSent (s : List Outbound) : LoopResult → LoopResult
  | .done t m => .done (s ++ t) m
  | .raisedMid t m => .raisedMid (s ++ t) m

/-- The tool-dispatch loop (main.py lines 568-656). Per tool call:
non-`function` entries are skipped; `json.loads(arguments)` runs outside
the per-call `try`, so its failure aborts the loop; inside the `try`, an
unknown tool name (the `FUNCTION_MAP[function_name]` lookup raises) or a
failing parameter construction or a raising handler is caught and
answered with the generic apology, and the loop continues; a returned
result with a truthy `error` is answered with the specific apology and
skipped; otherwise both history messages are appended and the follow-up
chat-completion call runs outside the `try` (its text is sent only when
truthy, line 651). -/
def toolLoop : List ToolCallEvent → List ChatMessage → LoopResult
  | [], msgs => .done [] msgs
  | e :: rest, msgs =>
    if e.ctype != "function" then toolLoop rest msgs
    else
      match e.argsDecode with
      | .exc m => .raisedMid [] m
      | .ok _ =>
        if e.name ∈ knownToolNames then
          if e.ctorOk then
            match e.handler with
            | .exc _ => prependSent [apologyGeneric] (toolLoop rest msgs)
            | .ok res =>
              if truthyOpt res.error then
                prependSent
                  [browsingNotice,
                   Outbound.chatResponse (some (toolErrorApology (res.error.getD "")))]
                  (toolLoop rest msgs)
              else
                let msgs1 := msgs ++ [assistantToolCallMsg e, toolResultMsg e res]
                match e.followup with
                | .exc m => .raisedMid [browsingNotice] m
                | .ok content =>
                  prependSent
                    ([browsingNotice] ++
                      match content with
                      | some s => if s != "" then [Outbound.chatResponse (some s)] else []
                      | none => [])
                    (toolLoop rest msgs1)
          else prependSent [apologyGeneric] (toolLoop rest msgs)
        else prependSent [apologyGeneric] (toolLoop rest msgs)

/-- The decoded inbound payload: the per-message reconstruction results
(`ChatMessage(**message_data)` may raise, and the handler re-raises). -/
structure InPayload where
  rawMessages : List (PyResult ChatMessage)
deriving DecidableEq, Repr

/-- The first chat-completion reply for an inbound message: optional
assistant text plus requested tool calls (an absent/`None` list is the
empty list). -/
structure ModelResponse where
  content : Option String := none
  tool_calls : List ToolCallEvent := []
deriving DecidableEq, Repr

/-- Reconstruction loop of lines 506-535: builds the `ChatMessage` list,
re-raising the first construction failure. -/
def reconstructMessages : List (PyResult ChatMessage) → PyResult (List ChatMessage)
  | [] => .ok []
  | .exc m :: _ => .exc m
  | .ok c :: rest =>
    match reconstructMessages rest with
    | .ok cs => .ok (c :: cs)
    | .exc m => .exc m

/-- System-prompt injection (lines 538-539). -/
def ensureSystem (sysPrompt : String) (msgs : List ChatMessage) : List ChatMessage :=
  if msgs.any (fun m => m.role == "system") then msgs
  else { role := "system", content := some sysPrompt } :: msgs

/-- Fate of the connection after one iteration of the `while True` loop:
`alive` (the loop waits for the next inbound message) or `crashed` (an
exception escaped past `except WebSocketDisconnect`, closing the
connection), each with the payloads sent to the client. -/
inductive ConnOutcome where
  | alive (sent : List Outbound)
  | crashed (sent : List Outbound)
deriving DecidableEq, Repr

/-- One iteration of the per-connection loop of `websocket_endpoint`
(main.py lines 500-663) on one inbound frame. `decoded` is the outcome
of `json.loads(data)`; `modelResp` the outcome of the first
`generate_chat_response` call. Decoding and reconstruction failures are
outside every handler except `except WebSocketDisconnect`, so they crash
the connection; everything from the first model call onward is inside
the message-level `try`, whose handler sends a typed `error` payload and
keeps the loop alive. -/
def handleInbound (sysPrompt : String) (decoded : PyResult InPayload)
    (modelResp : PyResult ModelResponse) : ConnOutcome :=
  match decoded with
  | .exc _ => .crashed []
  | .ok p =>
    match reconstructMessages p.rawMessages with
    | .exc _ => .crashed []
    | .ok msgs0 =>
      let msgs := ensureSystem sysPrompt msgs0
      let ack := [Outbound.messageReceived "Processing your request..."]
      match modelResp with
      | .exc m => .alive (ack ++ [Outbound.errorMsg m])
      | .ok r =>
        let sent1 := ack ++ [Outbound.chatResponse r.content]
        match toolLoop r.tool_calls msgs with
        | .done s _ => .alive (sent1 ++ s)
        | .raisedMid s m => .alive (sent1 ++ s ++ [Outbound.errorMsg m])

/-! ## Theorems -/

/-- C4: every `FlightSearchResult` produced by `search_flights` has at
most one of `flights` (a non-empty list) and `error` (a non-empty string)
populated: every error path leaves `flights` at `None`, and the success
path leaves `error` at `None`. -/
theorem search_flights_flights_error_exclusive (origin destination date : String)
    (resp : Reply (List ApiOffer)) :
    (search_flights origin destination date resp).flights = none ∨
    (search_flights origin destination date resp).error = none := by
  cases resp with
  | withErrors es => cases es <;> simp [search_flights]
  | ok data =>
    cases h : (data.take 5).mapM processOffer with
    | ok flights => simp only [search_flights]; rw [h]; simp
    | error u => simp only [search_flights]; rw [h]; simp

/-- C9: an offer whose first itinerary has `k` segments is processed into
a flight with `stops = k - 1` (over `Int`, as in the source, where
`stops` is a Python `int`); in particular one segment gives 0 stops. -/
theorem processOffer_stops_eq_segments_sub_one (pid : String) (itin : ApiItinerary)
    (rest : List ApiItinerary) (price : ApiPrice) :
    ∃ f, processOffer ⟨pid, itin :: rest, price⟩ = .ok f ∧
      f.flight.stops = (itin.segments.length : Int) - 1 := by
  refine ⟨_, rfl, ?_⟩
  simp [processOffer]

/-- C10: `search_flights` builds the returned segments and stop count
exclusively from `itineraries[0]`: processing an offer is unchanged when
every itinerary after the first is dropped, and the produced segment list
is exactly the mapped segments of the first itinerary. -/
theorem processOffer_ignores_later_itineraries (pid : String) (itin : ApiItinerary)
    (rest : List ApiItinerary) (price : ApiPrice) :
    processOffer ⟨pid, itin :: rest, price⟩ = processOffer ⟨pid, [itin], price⟩ ∧
    ∃ f, processOffer ⟨pid, itin :: rest, price⟩ = .ok f ∧
      f.flight.segments = itin.segments.map mkSegment :=
  ⟨rfl, _, rfl, rfl⟩

/-- Helper: the not-found message of `get_trip_details` is never empty. -/
theorem tripNotFoundMsg_ne_empty (tid : String) :
    ("Trip " ++ tid ++ " not found") ≠ "" := by
  intro h
  have h2 := congrArg String.length h
  simp [String.length_append] at h2
  exact absurd h2.1.1 (by decide)

/-- C7 counterexample: calling `get_trip_details` with the trip id `""`
(a string id that is never a ledger key) hits the falsy branch of
`if params.trip_id:` and returns every trip with no error, where the
claim demands an empty list and a non-empty error string. -/
theorem get_trip_details_empty_id_counterexample :
    lookupTrip [("TRIP_20240101", { trip_id := "TRIP_20240101" })] "" = none ∧
    (get_trip_details { trip_id := some "" }
        [("TRIP_20240101", { trip_id := "TRIP_20240101" })]).trips =
      [{ trip_id := "TRIP_20240101" }] ∧
    (get_trip_details { trip_id := some "" }
        [("TRIP_20240101", { trip_id := "TRIP_20240101" })]).error = none :=
  ⟨rfl, rfl, rfl⟩

/-- C7 (amended): with a non-empty trip id absent from the ledger,
`get_trip_details` returns an empty trip list and a non-empty error
string (and, being a total function, never raises); with an absent
(`None`) trip id it returns all trips. (With the empty-string id the
Python truthiness guard takes the all-trips branch instead.) -/
theorem get_trip_details_unknown_id_spec (p : GetTripDetailsParams) (st : TripStorage) :
    (∀ tid, p.trip_id = some tid → tid ≠ "" → lookupTrip st tid = none →
      (get_trip_details p st).trips = [] ∧
        ∃ e, (get_trip_details p st).error = some e ∧ e ≠ "") ∧
    (p.trip_id = none → get_trip_details p st = { trips := allTrips st, error := none }) := by
  constructor
  · intro tid hp hne hlook
    obtain ⟨ptid⟩ := p
    cases hp
    refine ⟨?_, "Trip " ++ tid ++ " not found", ?_, tripNotFoundMsg_ne_empty tid⟩ <;>
      simp [get_trip_details, hne, hlook]
  · intro hp
    obtain ⟨ptid⟩ := p
    cases hp
    rfl

/-- C7 witness: a concrete unknown (non-empty) id on an empty ledger. -/
theorem get_trip_details_unknown_id_spec_witness :
    (get_trip_details { trip_id := some "TRIP_19990101" } []).trips = [] ∧
      ∃ e, (get_trip_details { trip_id := some "TRIP_19990101" } []).error = some e ∧ e ≠ "" :=
  (get_trip_details_unknown_id_spec { trip_id := some "TRIP_19990101" } []).1
    "TRIP_19990101" rfl (by decide) rfl

/-- C3: a dispatch error on one tool call — an unknown tool name (the
`FUNCTION_MAP` lookup raises) or a failing parameter construction — is
caught by the per-call handler, answered with the generic apology
message, and only that call is skipped: the loop output is the apology
followed by the processing of the remaining tool calls against an
unchanged history. -/
theorem toolLoop_dispatch_error_skips_one (e : ToolCallEvent) (rest : List ToolCallEvent)
    (msgs : List ChatMessage) (h1 : e.ctype = "function")
    (h2 : ∃ u, e.argsDecode = .ok u)
    (h3 : e.name ∉ knownToolNames ∨ e.ctorOk = false) :
    toolLoop (e :: rest) msgs = prependSent [apologyGeneric] (toolLoop rest msgs) := by
  obtain ⟨u, hu⟩ := h2
  rcases h3 with h3 | h3
  · simp [toolLoop, h1, hu, h3]
  · by_cases hm : e.name ∈ knownToolNames <;> simp [toolLoop, h1, hu, h3, hm]

/-- C3 witness: an unknown tool name followed by no further calls. -/
theorem toolLoop_dispatch_error_skips_one_witness :
    toolLoop
        [{ id := "call_1", ctype := "function", name := "mystery_tool",
           argsStr := "\x7b\x7d", argsDecode := .ok (), ctorOk := true,
           handler := .ok {}, followup := .ok none }] [] =
      prependSent [apologyGeneric] (toolLoop [] []) :=
  toolLoop_dispatch_error_skips_one _ [] [] rfl ⟨(), rfl⟩ (Or.inl (by decide))

/-- C8: a dispatched tool result carrying a non-empty error string makes
the orchestrator send the specific apology message and `continue`: both
history appends for that call are skipped (the remaining calls run
against the unchanged history). -/
theorem toolLoop_error_result_skips_appends (e : ToolCallEvent) (rest : List ToolCallEvent)
    (msgs : List ChatMessage) (res : ToolResultVal) (err : String)
    (h1 : e.ctype = "function") (h2 : e.argsDecode = .ok ())
    (h3 : e.name ∈ knownToolNames) (h4 : e.ctorOk = true)
    (h5 : e.handler = .ok res) (h6 : res.error = some err) (h7 : err ≠ "") :
    toolLoop (e :: rest) msgs =
      prependSent
        [browsingNotice, Outbound.chatResponse (some (toolErrorApology err))]
        (toolLoop rest msgs) := by
  have htr : truthyOpt (some err) = true := by simp [truthyOpt, h7]
  simp [toolLoop, h1, h2, h3, h4, h5, h6, htr]

/-- C8 witness: a concrete known tool returning an error result. -/
theorem toolLoop_error_result_skips_appends_witness :
    toolLoop
        [{ id := "call_2", ctype := "function", name := "search_flights",
           argsStr := "\x7b\x7d", argsDecode := .ok (), ctorOk := true,
           handler := .ok { error := some "boom", dump := "d" }, followup := .ok none }] [] =
      prependSent
        [browsingNotice, Outbound.chatResponse (some (toolErrorApology "boom"))]
        (toolLoop [] []) :=
  toolLoop_error_result_skips_appends _ [] [] { error := some "boom", dump := "d" } "boom"
    rfl rfl (by decide) rfl rfl rfl (by decide)

/-- C2 counterexample: an inbound frame whose JSON decoding raises is
outside every handler except `except WebSocketDisconnect`, so the
exception terminates the connection with no typed error payload sent —
contradicting the claim that every exception of steps 2-6 (decoding
included) is caught, reported and survived. -/
theorem handleInbound_decode_failure_crashes :
    handleInbound "" (.exc "Expecting value: line 1 column 1") (.ok {}) =
      .crashed [] :=
  rfl

/-- Helper: when every inbound message reconstructs, the reconstruction
loop succeeds. -/
theorem reconstructMessages_ok (l : List (PyResult ChatMessage))
    (h : ∀ m ∈ l, ∃ c, m = .ok c) : ∃ cs, reconstructMessages l = .ok cs := by
  induction l with
  | nil => exact ⟨[], rfl⟩
  | cons x xs ih =>
    obtain ⟨c, hc⟩ := h x (by simp)
    subst hc
    obtain ⟨cs, hcs⟩ := ih fun m hm => h m (by simp [hm])
    exact ⟨c :: cs, by simp [reconstructMessages, hcs]⟩

/-- C2 (amended): once the inbound frame has decoded and every
`ChatMessage` reconstructs, every exception of the remaining steps
(model invocation, tool dispatch, history update) is caught by the
message-level handler, reported as a typed `error` payload, and the
connection stays alive; but an exception during step 2 itself (JSON
decoding or `ChatMessage` reconstruction) propagates past the
connection handler and terminates the connection. -/
theorem handleInbound_post_decode_alive (sysPrompt : String) (p : InPayload)
    (modelResp : PyResult ModelResponse)
    (hok : ∀ m ∈ p.rawMessages, ∃ c, m = .ok c) :
    ∃ sent, handleInbound sysPrompt (.ok p) modelResp = .alive sent ∧
      ∀ em, modelResp = .exc em → Outbound.errorMsg em ∈ sent := by
  obtain ⟨cs, hcs⟩ := reconstructMessages_ok _ hok
  cases modelResp with
  | exc m =>
    refine ⟨[Outbound.messageReceived "Processing your request...", Outbound.errorMsg m],
      by simp [handleInbound, hcs], ?_⟩
    intro em hem
    cases hem
    simp
  | ok r =>
    cases hl : toolLoop r.tool_calls (ensureSystem sysPrompt cs) with
    | done s msgs2 =>
      refine ⟨Outbound.messageReceived "Processing your request..." ::
        Outbound.chatResponse r.content :: s, ?_, ?_⟩
      · simp [handleInbound, hcs, hl]
      · intro em hem; simp at hem
    | raisedMid s m =>
      refine ⟨Outbound.messageReceived "Processing your request..." ::
        Outbound.chatResponse r.content :: (s ++ [Outbound.errorMsg m]), ?_, ?_⟩
      · simp [handleInbound, hcs, hl]
      · intro em hem; simp at hem

/-- C2 witness: a well-formed frame whose model call raises is reported
and survived. -/
theorem handleInbound_post_decode_alive_witness :
    ∃ sent,
      handleInbound "sys"
          (.ok { rawMessages := [.ok { role := "user", content := some "hi" }] })
          (.exc "boom") = .alive sent ∧
      ∀ em, (PyResult.exc "boom" : PyResult ModelResponse) = .exc em →
        Outbound.errorMsg em ∈ sent :=
  handleInbound_post_decode_alive "sys"
    { rawMessages := [.ok { role := "user", content := some "hi" }] }
    (.exc "boom") (by intro m hm; simp at hm; exact ⟨_, hm⟩)

/-- Helper: the parsable totals of `o :: os`, by cases on `o`. -/
theorem parsedTotals_cons (o : HotelOffer) (os : List HotelOffer) :
    parsedTotals (o :: os) =
      match parsedTotal o with
      | none => parsedTotals os
      | some q => q :: parsedTotals os := by
  cases h : parsedTotal o <;> simp [parsedTotals, List.filterMap_cons, h]

/-- Helper: running the cheapest-price loop from a finite current best
yields a best that is the minimum of the current best and every parsable
total seen. -/
theorem cheapestGo_some_spec (os : List HotelOffer) :
    ∀ c0 cur, ∃ c, (cheapestGo os (some c0, cur)).1 = some c ∧
      (c = c0 ∨ c ∈ parsedTotals os) ∧ c ≤ c0 ∧ ∀ q ∈ parsedTotals os, c ≤ q := by
  induction os with
  | nil =>
    intro c0 cur
    exact ⟨c0, rfl, Or.inl rfl, le_refl c0, by simp [parsedTotals]⟩
  | cons o rest ih =>
    intro c0 cur
    cases hp : parsedTotal o with
    | none =>
      obtain ⟨c, h1, h2, h3, h4⟩ := ih c0 cur
      refine ⟨c, by simp [cheapestGo, hp, h1], ?_, h3, ?_⟩
      · simpa [parsedTotals_cons, hp] using h2
      · intro q hq
        rw [parsedTotals_cons, hp] at hq
        exact h4 q hq
    | some q0 =>
      by_cases hlt : q0 < c0
      · obtain ⟨c, h1, h2, h3, h4⟩ := ih q0 (o.currency.getD "USD")
        refine ⟨c, by simp [cheapestGo, hp, hlt, h1], ?_, le_trans h3 (le_of_lt hlt), ?_⟩
        · rw [parsedTotals_cons, hp]
          rcases h2 with rfl | h2
          · exact Or.inr (List.mem_cons_self _ _)
          · exact Or.inr (List.mem_cons_of_mem _ h2)
        · intro q hq
          rw [parsedTotals_cons, hp] at hq
          rcases List.mem_cons.mp hq with rfl | hq
          · exact h3
          · exact h4 q hq
      · obtain ⟨c, h1, h2, h3, h4⟩ := ih c0 cur
        have hle : c0 ≤ q0 := le_of_not_lt hlt
        refine ⟨c, by simp [cheapestGo, hp, hlt, h1], ?_, h3, ?_⟩
        · rw [parsedTotals_cons, hp]
          rcases h2 with rfl | h2
          · exact Or.inl rfl
          · exact Or.inr (List.mem_cons_of_mem _ h2)
        · intro q hq
          rw [parsedTotals_cons, hp] at hq
          rcases List.mem_cons.mp hq with rfl | hq
          · exact le_trans h3 hle
          · exact h4 q hq

/-- Helper: from the initial infinite best, a non-empty set of parsable
totals yields their minimum. -/
theorem cheapestGo_none_spec (os : List HotelOffer) :
    ∀ cur, parsedTotals os ≠ [] →
      ∃ c, (cheapestGo os (none, cur)).1 = some c ∧ c ∈ parsedTotals os ∧
        ∀ q ∈ parsedTotals os, c ≤ q := by
  induction os with
  | nil => intro cur h; simp [parsedTotals] at h
  | cons o rest ih =>
    intro cur h
    cases hp : parsedTotal o with
    | none =>
      have h2 : parsedTotals rest ≠ [] := by
        rw [parsedTotals_cons, hp] at h
        exact h
      obtain ⟨c, h1, hmem, hmin⟩ := ih cur h2
      refine ⟨c, by simp [cheapestGo, hp, h1], ?_, ?_⟩
      · rw [parsedTotals_cons, hp]; exact hmem
      · intro q hq
        rw [parsedTotals_cons, hp] at hq
        exact hmin q hq
    | some q0 =>
      obtain ⟨c, h1, h2, h3, h4⟩ := cheapestGo_some_spec rest q0 (o.currency.getD "USD")
      refine ⟨c, by simp [cheapestGo, hp, h1], ?_, ?_⟩
      · rw [parsedTotals_cons, hp]
        rcases h2 with rfl | h2
        · exact List.mem_cons_self _ _
        · exact List.mem_cons_of_mem _ h2
      · intro q hq
        rw [parsedTotals_cons, hp] at hq
        rcases List.mem_cons.mp hq with rfl | hq
        · exact h3
        · exact h4 q hq

/-- C5: when at least one room offer has a parsable numeric total, the
hotel headline price is the minimum over exactly those offers; offers
whose total fails to parse are skipped by the minimum computation (the
whole function is total, so nothing raises) yet still produce one entry
each in the rooms list. -/
theorem hotel_headline_price_is_min (os : List HotelOffer)
    (h : parsedTotals os ≠ []) :
    ∃ c, (processHotelOffers os).priceAmount = some c ∧ c ∈ parsedTotals os ∧
      (∀ q ∈ parsedTotals os, c ≤ q) ∧
      (processHotelOffers os).rooms.length = os.length := by
  obtain ⟨c, h1, h2, h3⟩ := cheapestGo_none_spec os "USD" h
  exact ⟨c, by simp [processHotelOffers, h1], h2, h3, by simp [processHotelOffers]⟩

/-- C5 witness: two offers, one parsable total and one non-numeric total. -/
theorem hotel_headline_price_is_min_witness :
    ∃ c,
      (processHotelOffers
          [{ roomCategory := "Standard Room", description := "", bedType := "Unknown",
             total := .present "120.00" (some 120), currency := some "USD",
             refundable := true, cancellationPolicy := "" },
           { roomCategory := "Suite", description := "", bedType := "Unknown",
             total := .present "garbled" none, currency := some "USD",
             refundable := true, cancellationPolicy := "" }]).priceAmount = some c ∧
      c ∈ parsedTotals
          [{ roomCategory := "Standard Room", description := "", bedType := "Unknown",
             total := .present "120.00" (some 120), currency := some "USD",
             refundable := true, cancellationPolicy := "" },
           { roomCategory := "Suite", description := "", bedType := "Unknown",
             total := .present "garbled" none, currency := some "USD",
             refundable := true, cancellationPolicy := "" }] ∧
      (∀ q ∈ parsedTotals
          [{ roomCategory := "Standard Room", description := "", bedType := "Unknown",
             total := .present "120.00" (some 120), currency := some "USD",
             refundable := true, cancellationPolicy := "" },
           { roomCategory := "Suite", description := "", bedType := "Unknown",
             total := .present "garbled" none, currency := some "USD",
             refundable := true, cancellationPolicy := "" }], c ≤ q) ∧
      (processHotelOffers
          [{ roomCategory := "Standard Room", description := "", bedType := "Unknown",
             total := .present "120.00" (some 120), currency := some "USD",
             refundable := true, cancellationPolicy := "" },
           { roomCategory := "Suite", description := "", bedType := "Unknown",
             total := .present "garbled" none, currency := some "USD",
             refundable := true, cancellationPolicy := "" }]).rooms.length =
        ([{ roomCategory := "Standard Room", description := "", bedType := "Unknown",
            total := .present "120.00" (some 120), currency := some "USD",
            refundable := true, cancellationPolicy := "" },
          { roomCategory := "Suite", description := "", bedType := "Unknown",
            total := .present "garbled" none, currency := some "USD",
            refundable := true, cancellationPolicy := "" }] : List HotelOffer).length :=
  hotel_headline_price_is_min _ (by decide)

/-- Helper: every non-confirmed branch of `book_flight` returns an
error-status result and the unchanged ledger, and the confirmed branch is
reached only with all three replies error-free and the offer id found. -/
theorem book_flight_cases (params : BookFlightParams) (sr : Reply (List ApiOffer))
    (pr : Reply (List ConfOffer)) (br : Reply BookedOrder)
    (st : TripStorage) (today : Date) :
    (∃ m, book_flight params sr pr br st today = (errResult m, st)) ∨
    ((book_flight params sr pr br st today).1.status = "confirmed" ∧
      bookStepsOk params sr pr br = true) := by
  cases sr with
  | withErrors es =>
    cases es with
    | nil => exact Or.inl ⟨_, rfl⟩
    | cons e tail =>
      by_cases hc : containsSub (e.detail.getD "").toLower "schedule change detected" = true
      · exact Or.inl ⟨scheduleChangeMsg, by simp [book_flight, hc]⟩
      · exact Or.inl
          ⟨(if (e.detail.getD "") != "" then e.detail.getD ""
            else "No flights found matching the criteria"),
           by simp [book_flight, hc]⟩
  | ok offers =>
    cases hf : offers.find? (fun o => o.id == params.flight_id) with
    | none =>
      exact Or.inl
        ⟨"Could not find the selected flight. Please search again.",
         by simp [book_flight, hf]⟩
    | some o =>
      have hp := List.find?_some hf
      have hany : offers.any (fun o => o.id == params.flight_id) = true :=
        List.any_eq_true.mpr ⟨o, List.mem_of_find?_eq_some hf, by simpa using hp⟩
      cases pr with
      | withErrors es =>
        cases es with
        | nil => exact Or.inl ⟨genericBookingApology, by simp [book_flight, hf]⟩
        | cons e tail =>
          exact Or.inl ⟨e.detail.getD "Price confirmation failed", by simp [book_flight, hf]⟩
      | ok confOffers =>
        cases confOffers with
        | nil => exact Or.inl ⟨genericBookingApology, by simp [book_flight, hf]⟩
        | cons c0 crest =>
          cases br with
          | withErrors es =>
            cases es with
            | nil => exact Or.inl ⟨genericBookingApology, by simp [book_flight, hf]⟩
            | cons e tail =>
              by_cases hc : containsSub (e.detail.getD "").toLower "schedule change detected" = true
              · exact Or.inl ⟨scheduleChangeMsg, by simp [book_flight, hf, hc]⟩
              · exact Or.inl
                  ⟨e.detail.getD "Booking failed", by simp [book_flight, hf, hc]⟩
          | ok order =>
            cases horder : order.flightOffers with
            | nil =>
              exact Or.inl ⟨genericBookingApology, by simp [book_flight, hf, horder]⟩
            | cons co corest =>
              cases hitin : co.itineraries with
              | nil =>
                exact Or.inl ⟨genericBookingApology, by simp [book_flight, hf, horder, hitin]⟩
              | cons itin irest =>
                cases hsegs : itin.segments with
                | nil =>
                  exact Or.inl
                    ⟨genericBookingApology, by simp [book_flight, hf, horder, hitin, hsegs]⟩
                | cons s0 srest =>
                  refine Or.inr ⟨?_, by simp [bookStepsOk, hany]⟩
                  simp [book_flight, hf, horder, hitin, hsegs]

/-- C1: `book_flight` reaches `status = "confirmed"` only if all three
sequential provider calls (re-search, pricing, order creation) returned
without an `errors` field and the requested flight id was found among the
re-search offers; whenever any of those steps fails, the result has
`status = "error"` and the trip ledger is unchanged (more generally,
every non-confirmed outcome leaves the ledger unchanged). -/
theorem book_flight_confirmed_requires_steps (params : BookFlightParams)
    (sr : Reply (List ApiOffer)) (pr : Reply (List ConfOffer)) (br : Reply BookedOrder)
    (st : TripStorage) (today : Date) :
    ((book_flight params sr pr br st today).1.status = "confirmed" →
      bookStepsOk params sr pr br = true) ∧
    (bookStepsOk params sr pr br = false →
      (book_flight params sr pr br st today).1.status = "error" ∧
      (book_flight params sr pr br st today).2 = st) := by
  rcases book_flight_cases params sr pr br st today with ⟨m, hm⟩ | ⟨hs, hb⟩
  · constructor
    · intro h
      rw [hm] at h
      exact absurd h (by simp [errResult])
    · intro _
      rw [hm]
      exact ⟨rfl, rfl⟩
  · constructor
    · intro _
      exact hb
    · intro hfalse
      exact absurd (hb.symm.trans hfalse) (by decide)

/-- C1 witness: a failing first step (provider-reported error on the
re-search) yields an error result and leaves a concrete ledger intact. -/
theorem book_flight_confirmed_requires_steps_witness :
    (book_flight
        { flight_id := "1", origin := "LAX", destination := "JFK",
          departure_date := "2025-01-01", traveler := {} }
        (.withErrors [{ detail := some "boom" }]) (.ok []) (.ok { flightOffers := [] })
        [] { year := 2025, month := 1, day := 1 }).1.status = "error" ∧
    (book_flight
        { flight_id := "1", origin := "LAX", destination := "JFK",
          departure_date := "2025-01-01", traveler := {} }
        (.withErrors [{ detail := some "boom" }]) (.ok []) (.ok { flightOffers := [] })
        [] { year := 2025, month := 1, day := 1 }).2 = [] :=
  (book_flight_confirmed_requires_steps
      { flight_id := "1", origin := "LAX", destination := "JFK",
        departure_date := "2025-01-01", traveler := {} }
      (.withErrors [{ detail := some "boom" }]) (.ok []) (.ok { flightOffers := [] })
      [] { year := 2025, month := 1, day := 1 }).2 rfl

/-- Helper: `charsVal` of a concatenation. -/
theorem charsVal_append (a b : List Char) :
    charsVal (a ++ b) = charsVal a * 10 ^ b.length + charsVal b := by
  unfold charsVal
  rw [List.map_append, List.reverse_append, Nat.ofDigits_append]
  simp only [List.length_reverse, List.length_map]
  ring

/-- Helper: the digit character of `d < 10` decodes back to `d`. -/
theorem toNat_digitChar (d : Nat) (hd : d < 10) :
    (Char.ofNat (48 + d)).toNat - 48 = d := by
  interval_cases d <;> decide

/-- Helper: decoding inverts the digit rendering. -/
theorem charsVal_natDigitChars (n : Nat) : charsVal (natDigitChars n) = n := by
  unfold charsVal natDigitChars
  rw [List.map_reverse, List.reverse_reverse, List.map_map]
  have h : ((Nat.digits 10 n).map
        ((fun c : Char => c.toNat - 48) ∘ fun d => Char.ofNat (48 + d)))
      = Nat.digits 10 n := by
    conv_rhs => rw [← List.map_id (Nat.digits 10 n)]
    apply List.map_congr_left
    intro d hd
    simp only [Function.comp_apply, id_eq]
    exact toNat_digitChar d (Nat.digits_lt_base (by norm_num) hd)
  rw [h, Nat.ofDigits_digits]

/-- Helper: `Nat.ofDigits` of an all-zero list is zero. -/
theorem ofDigits_replicate_zero (z : Nat) :
    Nat.ofDigits 10 (List.replicate z 0) = 0 := by
  induction z with
  | zero => rfl
  | succ k ih => simp [List.replicate_succ, Nat.ofDigits_cons, ih]

/-- Helper: decoding also inverts the zero-padded rendering. -/
theorem charsVal_padChars (w n : Nat) : charsVal (padChars w n) = n := by
  unfold padChars
  rw [charsVal_append, charsVal_natDigitChars]
  have hc : ('0'.toNat - 48) = 0 := by decide
  have h0 : charsVal (List.replicate (w - (natDigitChars n).length) '0') = 0 := by
    unfold charsVal
    rw [List.map_replicate, hc, List.reverse_replicate, ofDigits_replicate_zero]
  rw [h0]
  simp

/-- Helper: the padded rendering of `n < 10 ^ w` has width exactly `w`. -/
theorem length_padChars (w n : Nat) (h : n < 10 ^ w) : (padChars w n).length = w := by
  have hlen : (natDigitChars n).length = (Nat.digits 10 n).length := by
    simp [natDigitChars]
  have hle : (Nat.digits 10 n).length ≤ w := by
    rcases Nat.eq_zero_or_pos n with rfl | hn
    · simp
    · have hlog : Nat.log 10 n < w := Nat.log_lt_of_lt_pow (by omega) h
      rw [Nat.digits_len 10 n (by norm_num) (by omega)]
      omega
  simp only [padChars, List.length_append, List.length_replicate, hlen]
  omega

/-- Helper: within `strftime` bounds, `%Y%m%d` rendering is injective. -/
theorem fmtYYYYMMDD_inj (d d2 : Date)
    (hy : d.year < 10 ^ 4) (hm : d.month < 10 ^ 2) (hd : d.day < 10 ^ 2)
    (hy2 : d2.year < 10 ^ 4) (hm2 : d2.month < 10 ^ 2) (hd2 : d2.day < 10 ^ 2)
    (h : fmtYYYYMMDD d = fmtYYYYMMDD d2) : d = d2 := by
  have hdata : padChars 4 d.year ++ (padChars 2 d.month ++ padChars 2 d.day)
      = padChars 4 d2.year ++ (padChars 2 d2.month ++ padChars 2 d2.day) := by
    have h2 := congrArg String.data h
    simpa [fmtYYYYMMDD, List.append_assoc] using h2
  obtain ⟨h1, h23⟩ := List.append_inj hdata
    (by rw [length_padChars 4 d.year hy, length_padChars 4 d2.year hy2])
  obtain ⟨h2, h3⟩ := List.append_inj h23
    (by rw [length_padChars 2 d.month hm, length_padChars 2 d2.month hm2])
  have e1 : d.year = d2.year := by
    have := congrArg charsVal h1
    rwa [charsVal_padChars, charsVal_padChars] at this
  have e2 : d.month = d2.month := by
    have := congrArg charsVal h2
    rwa [charsVal_padChars, charsVal_padChars] at this
  have e3 : d.day = d2.day := by
    have := congrArg charsVal h3
    rwa [charsVal_padChars, charsVal_padChars] at this
  cases d
  cases d2
  simp_all

/-- Helper: appending a fresh dict entry makes its key found. -/
theorem lookupTrip_append_missing (st : TripStorage) (tid : String) (td : TripDetails)
    (h : lookupTrip st tid = none) :
    lookupTrip (st ++ [(tid, td)]) tid = some td := by
  induction st with
  | nil => simp [lookupTrip]
  | cons p rest ih =>
    obtain ⟨k, v⟩ := p
    by_cases hk : (k == tid) = true
    · simp [lookupTrip, hk] at h
    · simp only [lookupTrip, hk] at h
      simp only [List.cons_append, lookupTrip, hk]
      simp only [Bool.false_eq_true, if_false]
      exact ih h

/-- Helper: appending a booking to an existing trip is visible through
lookup. -/
theorem lookupTrip_appendToTrip (st : TripStorage) (tid : String) (td : TripDetails)
    (tb : TripBooking) (h : lookupTrip st tid = some td) :
    lookupTrip (appendToTrip st tid tb) tid =
      some { td with bookings := td.bookings ++ [tb] } := by
  induction st with
  | nil => simp [lookupTrip] at h
  | cons p rest ih =>
    obtain ⟨k, v⟩ := p
    by_cases hk : (k == tid) = true
    · simp only [lookupTrip, hk, if_true, Option.some.injEq] at h
      subst h
      simp [appendToTrip, lookupTrip, hk]
    · simp only [lookupTrip, hk] at h
      simp only [Bool.false_eq_true, if_false] at h
      simp only [appendToTrip, hk, Bool.false_eq_true, if_false, lookupTrip]
      exact ih h

/-- Helper: storing into an already-present day key appends to it. -/
theorem store_booking_lookup_existing (btype : String) (bd : BookingData)
    (st : TripStorage) (d : Date) (td : TripDetails)
    (h : lookupTrip st (tripIdFor d) = some td) :
    lookupTrip (store_booking btype bd st d) (tripIdFor d) =
      some { td with bookings := td.bookings ++ [mkTripBooking btype bd d] } := by
  have h2 := lookupTrip_appendToTrip st (tripIdFor d) td (mkTripBooking btype bd d) h
  simpa [store_booking, h] using h2

/-- Helper: after `store_booking`, the day-keyed trip holds its previous
bookings followed by the new one. -/
theorem store_booking_lookup (btype : String) (bd : BookingData) (st : TripStorage)
    (d : Date) :
    ∃ tid0 old, lookupTrip (store_booking btype bd st d) (tripIdFor d) =
      some { trip_id := tid0, bookings := old ++ [mkTripBooking btype bd d] } := by
  cases hl : lookupTrip st (tripIdFor d) with
  | none =>
    have hfresh := lookupTrip_append_missing st (tripIdFor d)
      { trip_id := tripIdFor d, bookings := [] } hl
    have h2 := lookupTrip_appendToTrip _ (tripIdFor d) _ (mkTripBooking btype bd d) hfresh
    refine ⟨tripIdFor d, [], ?_⟩
    simpa [store_booking, hl] using h2
  | some td =>
    have h2 := store_booking_lookup_existing btype bd st d td hl
    exact ⟨td.trip_id, td.bookings, h2⟩

/-- C6: two bookings confirmed on the same calendar date are recorded
under the same trip id `TRIP_YYYYMMDD` (derived purely from that date,
with no connection or user in the key), and bookings confirmed on
different calendar dates (within `strftime` display bounds) land under
different trip ids. -/
theorem store_booking_same_day_groups (t1 t2 : String) (b1 b2 : BookingData)
    (st : TripStorage) (d d2 : Date)
    (hy : d.year < 10 ^ 4) (hm : d.month < 10 ^ 2) (hd : d.day < 10 ^ 2)
    (hy2 : d2.year < 10 ^ 4) (hm2 : d2.month < 10 ^ 2) (hd2 : d2.day < 10 ^ 2) :
    (∃ td, lookupTrip (store_booking t2 b2 (store_booking t1 b1 st d) d) (tripIdFor d) =
        some td ∧ mkTripBooking t1 b1 d ∈ td.bookings ∧
        mkTripBooking t2 b2 d ∈ td.bookings) ∧
    (d ≠ d2 → tripIdFor d ≠ tripIdFor d2) := by
  constructor
  · obtain ⟨tid0, old, h1⟩ := store_booking_lookup t1 b1 st d
    refine ⟨{ trip_id := tid0,
              bookings := (old ++ [mkTripBooking t1 b1 d]) ++ [mkTripBooking t2 b2 d] },
            ?_, ?_, ?_⟩
    · exact store_booking_lookup_existing t2 b2 _ d _ h1
    · simp
    · simp
  · intro hne heq
    apply hne
    apply fmtYYYYMMDD_inj d d2 hy hm hd hy2 hm2 hd2
    have hdata := congrArg String.data heq
    simp only [tripIdFor, String.data_append] at hdata
    exact String.ext (List.append_cancel_left hdata)

/-- C6 witness: two same-day bookings group under one trip id, and two
concrete different dates give different trip ids. -/
theorem store_booking_same_day_groups_witness :
    (∃ td,
        lookupTrip
            (store_booking "hotel" (.hotel {})
              (store_booking "flight" (.flight { status := "confirmed" }) []
                { year := 2025, month := 3, day := 14 })
              { year := 2025, month := 3, day := 14 })
            (tripIdFor { year := 2025, month := 3, day := 14 }) = some td ∧
        mkTripBooking "flight" (.flight { status := "confirmed" })
            { year := 2025, month := 3, day := 14 } ∈ td.bookings ∧
        mkTripBooking "hotel" (.hotel {}) { year := 2025, month := 3, day := 14 } ∈
          td.bookings) ∧
    ({ year := 2025, month := 3, day := 14 } ≠ ({ year := 2025, month := 3, day := 15 } : Date) →
      tripIdFor { year := 2025, month := 3, day := 14 } ≠
        tripIdFor { year := 2025, month := 3, day := 15 }) :=
  store_booking_same_day_groups "flight" "hotel" (.flight { status := "confirmed" })
    (.hotel {}) [] { year := 2025, month := 3, day := 14 }
    { year := 2025, month := 3, day := 15 }
    (by decide) (by decide) (by decide) (by decide) (by decide) (by decide)

end TravelBooking
